import Mathlib

/-!
Shallow embedding of the ucmt schema-migration tool: the schema model
(`src/ucmt/schema/models.py`), the schema differ (`src/ucmt/schema/diff.py`),
the migration code generator (`src/ucmt/schema/codegen.py`), the in-memory
migration state store (`src/ucmt/migrations/state.py`) and the migration
runner (`src/ucmt/migrations/runner.py`).

Modelling conventions:
* A Python `dict` is an association list in insertion order.  The dict
  comprehension `\x7bc.name: c for c in cols\x7d` (last value wins for a
  duplicated key) is modelled by looking the key up from the right.
* Python `set` iteration order is unspecified; this embedding iterates set
  differences and intersections in first-occurrence order of the underlying
  key list.  Python set equality `set(a) == set(b)` is mutual containment.
* Python `sorted` is a stable sort; `_order_changes`, whose key space is the
  fixed priority range 0..99, is modelled as bucket concatenation in
  ascending key order, which is extensionally the same stable sort.
* Raised exceptions are modelled with `Except` / an error component in the
  result; `datetime.now()` is passed in as an explicit `now : String`
  argument (its value never influences control flow in the source).
-/

set_option maxRecDepth 40000

namespace Ucmt

/-- `ChangeType` enum from `src/ucmt/types.py`. -/
inductive ChangeType where
  | CREATE_TABLE
  | DROP_TABLE
  | ADD_COLUMN
  | DROP_COLUMN
  | ALTER_COLUMN_TYPE
  | ALTER_COLUMN_NULLABILITY
  | ALTER_COLUMN_DEFAULT
  | SET_PRIMARY_KEY
  | DROP_PRIMARY_KEY
  | ADD_FOREIGN_KEY
  | DROP_FOREIGN_KEY
  | ADD_CHECK_CONSTRAINT
  | DROP_CHECK_CONSTRAINT
  | ALTER_CLUSTERING
  | ALTER_PARTITIONING
  | ALTER_TABLE_PROPERTIES
  deriving DecidableEq, Repr

/-- The `.value` string of each `ChangeType` member (`src/ucmt/types.py`). -/
def change_type_value : ChangeType → String
  | .CREATE_TABLE => "create_table"
  | .DROP_TABLE => "drop_table"
  | .ADD_COLUMN => "add_column"
  | .DROP_COLUMN => "drop_column"
  | .ALTER_COLUMN_TYPE => "alter_column_type"
  | .ALTER_COLUMN_NULLABILITY => "alter_column_nullability"
  | .ALTER_COLUMN_DEFAULT => "alter_column_default"
  | .SET_PRIMARY_KEY => "set_primary_key"
  | .DROP_PRIMARY_KEY => "drop_primary_key"
  | .ADD_FOREIGN_KEY => "add_foreign_key"
  | .DROP_FOREIGN_KEY => "drop_foreign_key"
  | .ADD_CHECK_CONSTRAINT => "add_check_constraint"
  | .DROP_CHECK_CONSTRAINT => "drop_check_constraint"
  | .ALTER_CLUSTERING => "alter_clustering"
  | .ALTER_PARTITIONING => "alter_partitioning"
  | .ALTER_TABLE_PROPERTIES => "alter_table_properties"

/-- Helper for `dedupFirst`: drop every element already seen. -/
def dedupFirstAux (seen : List String) : List String → List String
  | [] => []
  | x :: xs =>
    if seen.contains x then dedupFirstAux seen xs
    else x :: dedupFirstAux (x :: seen) xs

/-- Python dict key order for a dict built by repeated assignment: each key
once, at its first-insertion position. -/
def dedupFirst (l : List String) : List String :=
  dedupFirstAux [] l

/-- Python `str.upper()` (character-wise ASCII uppercasing, which is what it
does on the SQL identifiers and type names this tool handles). -/
def str_upper (s : String) : String :=
  ⟨s.data.map Char.toUpper⟩

/-- Python `str.strip()` as run by `Column.__post_init__`. -/
def py_strip (s : String) : String :=
  ⟨((s.data.dropWhile (·.isWhitespace)).reverse.dropWhile (·.isWhitespace)).reverse⟩

/-- Python `str.replace(old, new)`: replace all non-overlapping occurrences
left to right.  The fuel argument (the string length) makes the recursion
structural; the patterns this tool replaces are never empty. -/
def py_replace_fuel (pat rep : List Char) : Nat → List Char → List Char
  | _, [] => []
  | 0, l => l
  | fuel + 1, c :: cs =>
    if pat.isPrefixOf (c :: cs) then
      rep ++ py_replace_fuel pat rep fuel ((c :: cs).drop pat.length)
    else c :: py_replace_fuel pat rep fuel cs

/-- Python `str.replace(old, new)` on strings (`old` non-empty at every call
site in this embedding). -/
def py_replace (s pat rep : String) : String :=
  if pat.data.isEmpty then s
  else ⟨py_replace_fuel pat.data rep.data s.data.length s.data⟩

/-- Python `"sep".join(lines)`. -/
def join_lines (sep : String) : List String → String
  | [] => ""
  | [x] => x
  | x :: xs => x ++ sep ++ join_lines sep xs

/-- Python `repr` of a list of strings, as interpolated into f-strings
(`f"... \x7bsource.partitioned_by\x7d ..."`). -/
def py_list_repr (l : List String) : String :=
  "[" ++ join_lines ", " (l.map (fun s => "\x27" ++ s ++ "\x27")) ++ "]"

/-- `ForeignKey` dataclass (`src/ucmt/schema/models.py`): informational only. -/
structure ForeignKey where
  table : String
  column : String
  deriving DecidableEq, Repr

/-- `PrimaryKey` dataclass (`src/ucmt/schema/models.py`).  Dataclass equality
compares the column list (order significant) and the rely flag. -/
structure PrimaryKey where
  columns : List String
  rely : Bool := false
  deriving DecidableEq, Repr

/-- `CheckConstraint` dataclass (`src/ucmt/schema/models.py`). -/
structure CheckConstraint where
  name : String
  expression : String
  deriving DecidableEq, Repr

/-- `Column` dataclass (`src/ucmt/schema/models.py`).  `__post_init__` strips
whitespace from `type`; concrete columns in this file are built with already
stripped type strings (see `Column.make`). -/
structure Column where
  name : String
  type : String
  nullable : Bool := true
  default : Option String := none
  generated : Option String := none
  check : Option String := none
  foreign_key : Option ForeignKey := none
  comment : Option String := none
  deriving DecidableEq, Repr

/-- Constructing a `Column` runs `__post_init__`, which strips the type
string (`src/ucmt/schema/models.py`). -/
def Column.make (name ty : String) (nullable : Bool := true)
    (default : Option String := none) : Column :=
  { name := name, type := py_strip ty, nullable := nullable, default := default }

/-- `Table` dataclass fields (`src/ucmt/schema/models.py`).  `table_properties`
models a Python `dict[str, str]` as an association list (key uniqueness is a
representation invariant of the dict, stated as a hypothesis where needed). -/
structure Table where
  name : String
  columns : List Column
  primary_key : Option PrimaryKey := none
  check_constraints : List CheckConstraint := []
  liquid_clustering : List String := []
  partitioned_by : List String := []
  table_properties : List (String × String) := []
  comment : Option String := none
  deriving DecidableEq, Repr

/-- Keys of the dict comprehension `\x7bc.name: c for c in cols\x7d`, in Python
dict key order: first-insertion order, each key once. -/
def col_dict_keys (cols : List Column) : List String :=
  dedupFirst (cols.map (·.name))

/-- Value lookup in the dict comprehension `\x7bc.name: c for c in cols\x7d`:
for a duplicated name the last assignment wins, hence the reversed search. -/
def col_dict_get (cols : List Column) (n : String) : Option Column :=
  cols.reverse.find? (fun c => c.name == n)

/-- Keys of `\x7bc.name: c for c in constraints\x7d` in Python dict key order. -/
def check_dict_keys (cs : List CheckConstraint) : List String :=
  dedupFirst (cs.map (·.name))

/-- Value lookup in `\x7bc.name: c for c in constraints\x7d` (last wins). -/
def check_dict_get (cs : List CheckConstraint) (n : String) : Option CheckConstraint :=
  cs.reverse.find? (fun c => c.name == n)

/-- `dict.get` on a `dict[str, str]` association list (keys unique, so the
first match is the binding). -/
def props_get : List (String × String) → String → Option String
  | [], _ => none
  | p :: ps, k => if p.1 == k then some p.2 else props_get ps k

/-- Python `dict ==` on `dict[str, str]`: same key set, equal value at every
key. -/
def props_dict_eqb (a b : List (String × String)) : Bool :=
  (a.map (·.1)).all (fun k => props_get b k == props_get a k) &&
  (b.map (·.1)).all (fun k => props_get a k == props_get b k)

/-- Python `dict ==` on the name-keyed column dicts built by `Table.__eq__`. -/
def col_dict_eqb (a b : List Column) : Bool :=
  (col_dict_keys a).all (fun k => col_dict_get b k == col_dict_get a k) &&
  (col_dict_keys b).all (fun k => col_dict_get a k == col_dict_get b k)

/-- Python `dict ==` on the name-keyed check-constraint dicts built by
`Table.__eq__`. -/
def check_dict_eqb (a b : List CheckConstraint) : Bool :=
  (check_dict_keys a).all (fun k => check_dict_get b k == check_dict_get a k) &&
  (check_dict_keys b).all (fun k => check_dict_get a k == check_dict_get b k)

/-- Python `set(a) == set(b)` on string lists: mutual containment. -/
def str_set_eqb (a b : List String) : Bool :=
  a.all (b.contains ·) && b.all (a.contains ·)

/-- `Table.__eq__` (`src/ucmt/schema/models.py`): column order, clustering
order and partitioning order are not significant; primary key, check
constraints (name-keyed), properties and comment are compared. -/
def tableEqb (s t : Table) : Bool :=
  s.name == t.name &&
  s.primary_key == t.primary_key &&
  check_dict_eqb s.check_constraints t.check_constraints &&
  str_set_eqb s.liquid_clustering t.liquid_clustering &&
  str_set_eqb s.partitioned_by t.partitioned_by &&
  props_dict_eqb s.table_properties t.table_properties &&
  s.comment == t.comment &&
  col_dict_eqb s.columns t.columns

/-- `Schema` dataclass (`src/ucmt/schema/models.py`): a dict from table name
to `Table`, modelled as an association list in insertion order. -/
structure Schema where
  tables : List (String × Table)
  deriving Repr

/-- `Schema.get_table`: `self.tables.get(name)`. -/
def Schema.get_table (s : Schema) (name : String) : Option Table :=
  (s.tables.find? (fun p => p.1 == name)).map (·.2)

/-- `Schema.table_names`: `set(self.tables.keys())`, iterated in
first-occurrence order (Python set iteration order is unspecified). -/
def Schema.table_names (s : Schema) : List String :=
  dedupFirst (s.tables.map (·.1))

/-- `Schema` dataclass equality: `self.tables == other.tables` as Python
dicts, with values compared by `Table.__eq__`. -/
def schemaEqb (a b : Schema) : Bool :=
  (a.tables.map (·.1)).all (fun k =>
    match a.get_table k, b.get_table k with
    | some ta, some tb => tableEqb ta tb
    | _, _ => false) &&
  (b.tables.map (·.1)).all (fun k =>
    match a.get_table k, b.get_table k with
    | some ta, some tb => tableEqb ta tb
    | _, _ => false)

/-- `DeltaTypeRules.WIDENING_PATHS` membership (`src/ucmt/schema/models.py`):
`is_widening` is true when the types differ and the target is on the
source's widening path. -/
def DeltaTypeRules.is_widening (from_type to_type : String) : Bool :=
  let fu := str_upper from_type
  let tu := str_upper to_type
  if fu == tu then false
  else
    let allowed : List String :=
      if fu == "TINYINT" then ["SMALLINT", "INT", "BIGINT"]
      else if fu == "SMALLINT" then ["INT", "BIGINT"]
      else if fu == "INT" then ["BIGINT"]
      else if fu == "FLOAT" then ["DOUBLE"]
      else []
    allowed.contains tu

/-- Python `\s*` over the characters this dialect uses. -/
def dropSpaces (l : List Char) : List Char :=
  l.dropWhile (·.isWhitespace)

/-- Model of `re.match` with the pattern
`DECIMAL\s*\(\s*(\d+)\s*,\s*(\d+)\s*\)` used by
`DeltaTypeRules.is_decimal_change_unsupported`: anchored at the start,
trailing input allowed; returns the two digit groups. -/
def decimal_params (s : String) : Option (List Char × List Char) :=
  let l := s.data
  if l.take 7 = "DECIMAL".data then
    match dropSpaces (l.drop 7) with
    | '(' :: rest =>
      let rest := dropSpaces rest
      let d1 := rest.takeWhile (·.isDigit)
      let rest := rest.dropWhile (·.isDigit)
      if d1.isEmpty then none
      else
        match dropSpaces rest with
        | ',' :: rest2 =>
          let rest2 := dropSpaces rest2
          let d2 := rest2.takeWhile (·.isDigit)
          let rest2 := rest2.dropWhile (·.isDigit)
          if d2.isEmpty then none
          else
            match dropSpaces rest2 with
            | ')' :: _ => some (d1, d2)
            | _ => none
        | _ => none
    | _ => none
  else none

/-- `DeltaTypeRules.is_decimal_change_unsupported`
(`src/ucmt/schema/models.py`): both sides parse as `DECIMAL(p,s)` and the
`(p,s)` digit-group pairs differ (compared as strings, as in the source). -/
def DeltaTypeRules.is_decimal_change_unsupported (from_type to_type : String) : Bool :=
  match decimal_params (str_upper from_type), decimal_params (str_upper to_type) with
  | some p, some q => p != q
  | _, _ => false

/-- Detail payload of a `SchemaChange` (`details: dict[str, Any]` in
`src/ucmt/schema/diff.py`), as a tagged union with one variant per shape the
differ and generator actually use. -/
inductive ChangeDetails where
  | emptyDetails
  | tableDetail (table : Table)
  | columnDetail (column : Column)
  | columnNameDetail (column_name : String)
  | typeDetail (column_name from_type to_type : String)
  | nullabilityDetail (column_name : String) (from_nullable to_nullable : Bool)
  | defaultDetail (column_name : String) (from_default to_default : Option String)
  | pkDetail (constraint : PrimaryKey)
  | checkDetail (constraint : CheckConstraint)
  | constraintNameDetail (constraint_name : String)
  | clusteringDetail (from_columns to_columns : List String)
  | propertiesDetail (properties : List (String × String))
  deriving DecidableEq, Repr

/-- `SchemaChange` dataclass (`src/ucmt/schema/diff.py`). -/
structure SchemaChange where
  change_type : ChangeType
  table_name : String
  details : ChangeDetails := .emptyDetails
  is_destructive : Bool := false
  is_unsupported : Bool := false
  requires_column_mapping : Bool := false
  error_message : Option String := none
  deriving DecidableEq, Repr

/-- The normalization `ty.upper().split("(")[0]` used by
`SchemaDiffer._validate_type_change` (`str.split` always returns a non-empty
list, so indexing its head never fails). -/
def base_type (ty : String) : String :=
  ⟨(str_upper ty).data.takeWhile (fun c => c ≠ '(')⟩

/-- The `widening_allowed` set literal of `SchemaDiffer._validate_type_change`,
in source order. -/
def widening_allowed : List (String × String) :=
  [("INT", "BIGINT"), ("SMALLINT", "INT"), ("SMALLINT", "BIGINT"),
   ("TINYINT", "SMALLINT"), ("TINYINT", "INT"), ("TINYINT", "BIGINT"),
   ("FLOAT", "DOUBLE")]

/-- `SchemaDiffer._validate_type_change` (`src/ucmt/schema/diff.py`). -/
def validate_type_change (from_type to_type : String) : Bool × Option String :=
  let from_upper := base_type from_type
  let to_upper := base_type to_type
  if widening_allowed.contains (from_upper, to_upper) then (true, none)
  else if from_upper == to_upper then (true, none)
  else
    (false, some ("Type change from " ++ from_type ++ " to " ++ to_type ++
      " is not supported. Only widening conversions are allowed."))

/-- `SchemaDiffer._diff_column` (`src/ucmt/schema/diff.py`). -/
def diff_column (table_name : String) (source target : Column) : List SchemaChange :=
  let typeChanges :=
    if str_upper source.type ≠ str_upper target.type then
      let v := validate_type_change source.type target.type
      [{ change_type := .ALTER_COLUMN_TYPE, table_name := table_name,
         details := .typeDetail source.name source.type target.type,
         is_unsupported := !v.1, error_message := v.2 }]
    else []
  let nullChanges :=
    if source.nullable ≠ target.nullable then
      [{ change_type := .ALTER_COLUMN_NULLABILITY, table_name := table_name,
         details := .nullabilityDetail source.name source.nullable target.nullable }]
    else []
  let defaultChanges :=
    if source.default ≠ target.default then
      [{ change_type := .ALTER_COLUMN_DEFAULT, table_name := table_name,
         details := .defaultDetail source.name source.default target.default }]
    else []
  typeChanges ++ nullChanges ++ defaultChanges

/-- `SchemaDiffer._diff_columns` (`src/ucmt/schema/diff.py`): name-keyed set
differences, then a per-column diff on the shared names. -/
def diff_columns (source target : Table) : List SchemaChange :=
  let table_name := source.name
  let source_keys := col_dict_keys source.columns
  let target_keys := col_dict_keys target.columns
  let adds := (target_keys.filter (fun n => !source_keys.contains n)).filterMap
    (fun n => (col_dict_get target.columns n).map (fun c =>
      { change_type := .ADD_COLUMN, table_name := table_name,
        details := .columnDetail c : SchemaChange }))
  let drops := (source_keys.filter (fun n => !target_keys.contains n)).map
    (fun n =>
      { change_type := .DROP_COLUMN, table_name := table_name,
        details := .columnNameDetail n, is_destructive := true,
        requires_column_mapping := true : SchemaChange })
  let commons := (source_keys.filter (fun n => target_keys.contains n)).flatMap
    (fun n =>
      match col_dict_get source.columns n, col_dict_get target.columns n with
      | some sc, some tc => diff_column table_name sc tc
      | _, _ => [])
  adds ++ drops ++ commons

/-- `SchemaDiffer._diff_constraints` (`src/ucmt/schema/diff.py`). -/
def diff_constraints (source target : Table) : List SchemaChange :=
  let pkChanges :=
    if source.primary_key ≠ target.primary_key then
      (match source.primary_key with
       | some pk => [{ change_type := .DROP_PRIMARY_KEY, table_name := source.name,
                       details := .pkDetail pk : SchemaChange }]
       | none => []) ++
      (match target.primary_key with
       | some pk => [{ change_type := .SET_PRIMARY_KEY, table_name := source.name,
                       details := .pkDetail pk : SchemaChange }]
       | none => [])
    else []
  let source_keys := check_dict_keys source.check_constraints
  let target_keys := check_dict_keys target.check_constraints
  let adds := (target_keys.filter (fun n => !source_keys.contains n)).filterMap
    (fun n => (check_dict_get target.check_constraints n).map (fun c =>
      { change_type := .ADD_CHECK_CONSTRAINT, table_name := source.name,
        details := .checkDetail c : SchemaChange }))
  let drops := (source_keys.filter (fun n => !target_keys.contains n)).map
    (fun n =>
      { change_type := .DROP_CHECK_CONSTRAINT, table_name := source.name,
        details := .constraintNameDetail n : SchemaChange })
  pkChanges ++ adds ++ drops

/-- `SchemaDiffer._diff_clustering` (`src/ucmt/schema/diff.py`): compare as
sets, emit the full target list in target order when different. -/
def diff_clustering (source target : Table) : List SchemaChange :=
  if str_set_eqb source.liquid_clustering target.liquid_clustering then []
  else
    [{ change_type := .ALTER_CLUSTERING, table_name := source.name,
       details := .clusteringDetail source.liquid_clustering target.liquid_clustering }]

/-- `SchemaDiffer._diff_partitioning` (`src/ucmt/schema/diff.py`): any
set-level difference is one change, always unsupported.  The error message
interpolates the Python list reprs of the column lists; the message is
modelled positionally with the same fixed text around the two lists. -/
def diff_partitioning (source target : Table) : List SchemaChange :=
  if str_set_eqb source.partitioned_by target.partitioned_by then []
  else
    [{ change_type := .ALTER_PARTITIONING, table_name := source.name,
       details := .clusteringDetail source.partitioned_by target.partitioned_by,
       is_unsupported := true,
       error_message := some
         ("Cannot change partitioning for table \x27" ++ source.name ++ "\x27. " ++
          "Current: " ++ py_list_repr source.partitioned_by ++
          ", Desired: " ++ py_list_repr target.partitioned_by ++ ". " ++
          "Delta Lake does not support changing partition columns. " ++
          "You must recreate the table.") }]

/-- `SchemaDiffer._diff_properties` (`src/ucmt/schema/diff.py`): keys present
in the target whose value differs from (or is missing in) the source. -/
def diff_properties (source target : Table) : List SchemaChange :=
  let changed := target.table_properties.filter
    (fun p => props_get source.table_properties p.1 ≠ some p.2)
  if changed.isEmpty then []
  else
    [{ change_type := .ALTER_TABLE_PROPERTIES, table_name := source.name,
       details := .propertiesDetail changed }]

/-- `SchemaDiffer._diff_table` (`src/ucmt/schema/diff.py`). -/
def diff_table (source target : Table) : List SchemaChange :=
  diff_columns source target ++
  diff_constraints source target ++
  diff_clustering source target ++
  diff_partitioning source target ++
  diff_properties source target

/-- The priority dict of `SchemaDiffer._order_changes`; `ALTER_PARTITIONING`
is absent from the dict, so `order.get(c.change_type, 99)` yields 99. -/
def change_priority : ChangeType → Nat
  | .CREATE_TABLE => 0
  | .ADD_COLUMN => 1
  | .ALTER_COLUMN_TYPE => 2
  | .ALTER_COLUMN_NULLABILITY => 2
  | .ALTER_COLUMN_DEFAULT => 2
  | .SET_PRIMARY_KEY => 3
  | .ADD_FOREIGN_KEY => 3
  | .ADD_CHECK_CONSTRAINT => 3
  | .ALTER_CLUSTERING => 4
  | .ALTER_TABLE_PROPERTIES => 4
  | .DROP_CHECK_CONSTRAINT => 5
  | .DROP_FOREIGN_KEY => 5
  | .DROP_PRIMARY_KEY => 5
  | .DROP_COLUMN => 6
  | .DROP_TABLE => 7
  | .ALTER_PARTITIONING => 99

/-- `SchemaDiffer._order_changes` (`src/ucmt/schema/diff.py`): Python's
stable `sorted` by the priority key, realised as bucket concatenation in
ascending priority order over the key space 0..99. -/
def order_changes (changes : List SchemaChange) : List SchemaChange :=
  (List.range 100).flatMap
    (fun p => changes.filter (fun c => change_priority c.change_type == p))

/-- `SchemaDiffer.diff` (`src/ucmt/schema/diff.py`): CREATE_TABLE for
target-only names, DROP_TABLE for source-only names, per-table diff for
shared names, then the global ordering pass. -/
def diff (source target : Schema) : List SchemaChange :=
  let source_tables := source.table_names
  let target_tables := target.table_names
  let creates := (target_tables.filter (fun n => !source_tables.contains n)).filterMap
    (fun n => (target.get_table n).map (fun t =>
      { change_type := .CREATE_TABLE, table_name := n,
        details := .tableDetail t : SchemaChange }))
  let drops := (source_tables.filter (fun n => !target_tables.contains n)).map
    (fun n =>
      { change_type := .DROP_TABLE, table_name := n,
        is_destructive := true : SchemaChange })
  let commons := (source_tables.filter (fun n => target_tables.contains n)).flatMap
    (fun n =>
      match source.get_table n, target.get_table n with
      | some s, some t => diff_table s t
      | _, _ => [])
  order_changes (creates ++ drops ++ commons)

/-- The exception kinds of `src/ucmt/exceptions.py` that the embedded
components can raise, plus an arbitrary exception raised by the external
executor callback (stringified by the runner). -/
inductive UcmtErr where
  | codegenError (msg : String)
  | keyError (msg : String)
  | migrationStateConflict (msg : String)
  | migrationChecksumMismatch (msg : String)
  | executorRaised (msg : String)
  deriving DecidableEq, Repr

/-- `_escape_sql_string` (`src/ucmt/schema/codegen.py` and
`src/ucmt/migrations/state.py`): double embedded single quotes. -/
def escape_sql_string (value : String) : String :=
  py_replace value "\x27" "\x27\x27"

/-- Python truthiness of an `Optional[str]` (`if col.default:` style tests):
false for `None` and for the empty string. -/
def truthyStr : Option String → Bool
  | none => false
  | some s => !s.data.isEmpty

/-- Python `str(x)` on an `Optional[str]` as used in f-strings:
`str(None) = "None"`. -/
def pyStrOpt : Option String → String
  | none => "None"
  | some s => s

/-- `MigrationGenerator._fqn` (`src/ucmt/schema/codegen.py`): placeholder
tokens, never the configured catalog/schema values. -/
def fqn (table_name : String) : String :=
  "${catalog}.${schema}." ++ table_name

/-- `MigrationGenerator._gen_create_table` (`src/ucmt/schema/codegen.py`). -/
def gen_create_table (table : Table) : String :=
  let col_defs := table.columns.map (fun col =>
    let d := "    " ++ col.name ++ " " ++ col.type
    let d := if truthyStr col.generated then d ++ " GENERATED " ++ pyStrOpt col.generated else d
    let d := if !col.nullable then d ++ " NOT NULL" else d
    let d := if truthyStr col.default then d ++ " DEFAULT " ++ pyStrOpt col.default else d
    let d := if truthyStr col.comment then
        d ++ " COMMENT \x27" ++ escape_sql_string (pyStrOpt col.comment) ++ "\x27"
      else d
    d)
  let col_defs := col_defs ++
    (match table.primary_key with
     | some pk =>
       let rely := if pk.rely then " RELY" else " NORELY"
       ["    CONSTRAINT pk_" ++ table.name ++ " PRIMARY KEY (" ++
        join_lines ", " pk.columns ++ ")" ++ rely]
     | none => [])
  let sql := "CREATE TABLE IF NOT EXISTS " ++ fqn table.name ++ " (\n" ++
    join_lines ",\n" col_defs ++ "\n) USING DELTA"
  let sql := if !table.liquid_clustering.isEmpty then
      sql ++ "\nCLUSTER BY (" ++ join_lines ", " table.liquid_clustering ++ ")"
    else if !table.partitioned_by.isEmpty then
      sql ++ "\nPARTITIONED BY (" ++ join_lines ", " table.partitioned_by ++ ")"
    else sql
  let sql := if !table.table_properties.isEmpty then
      sql ++ "\nTBLPROPERTIES (" ++
        join_lines ", " (table.table_properties.map (fun p =>
          "\x27" ++ p.1 ++ "\x27 = \x27" ++ escape_sql_string p.2 ++ "\x27")) ++ ")"
    else sql
  let sql := if truthyStr table.comment then
      sql ++ "\nCOMMENT \x27" ++ escape_sql_string (pyStrOpt table.comment) ++ "\x27"
    else sql
  sql ++ ";"

/-- `MigrationGenerator._gen_add_column` (`src/ucmt/schema/codegen.py`):
a non-nullable column without a (truthy) default is a hard `CodegenError`. -/
def gen_add_column (table_name : String) (col : Column) : Except UcmtErr String :=
  let col_def := col.name ++ " " ++ col.type
  if !col.nullable && !truthyStr col.default then
    .error (.codegenError ("Cannot add non-nullable column \x27" ++ col.name ++
      "\x27 without a default."))
  else
    let col_def := if !col.nullable then col_def ++ " NOT NULL" else col_def
    let col_def := if truthyStr col.default then
        col_def ++ " DEFAULT " ++ pyStrOpt col.default
      else col_def
    let col_def := if truthyStr col.comment then
        col_def ++ " COMMENT \x27" ++ escape_sql_string (pyStrOpt col.comment) ++ "\x27"
      else col_def
    .ok ("ALTER TABLE " ++ fqn table_name ++ " ADD COLUMN IF NOT EXISTS " ++ col_def ++ ";")

/-- `MigrationGenerator._generate_sql` (`src/ucmt/schema/codegen.py`): the
per-kind dispatch table.  A change kind with no generator raises
`CodegenError`; a payload whose shape does not match the kind would raise a
`KeyError`/`TypeError` in Python, modelled as `keyError`. -/
def generate_sql (change : SchemaChange) : Except UcmtErr String :=
  match change.change_type, change.details with
  | .CREATE_TABLE, .tableDetail t => .ok (gen_create_table t)
  | .DROP_TABLE, _ => .ok ("-- DROP TABLE IF EXISTS " ++ fqn change.table_name ++ ";")
  | .ADD_COLUMN, .columnDetail c => gen_add_column change.table_name c
  | .DROP_COLUMN, .columnNameDetail n =>
    .ok ("ALTER TABLE " ++ fqn change.table_name ++ " DROP COLUMN IF EXISTS " ++ n ++ ";")
  | .ALTER_COLUMN_TYPE, .typeDetail n _ to_type =>
    .ok ("ALTER TABLE " ++ fqn change.table_name ++ " ALTER COLUMN " ++ n ++
      " TYPE " ++ to_type ++ ";")
  | .ALTER_COLUMN_NULLABILITY, .nullabilityDetail n _ to_nullable =>
    if to_nullable then
      .ok ("ALTER TABLE " ++ fqn change.table_name ++ " ALTER COLUMN " ++ n ++
        " DROP NOT NULL;")
    else
      .ok ("ALTER TABLE " ++ fqn change.table_name ++ " ALTER COLUMN " ++ n ++
        " SET NOT NULL;")
  | .ALTER_COLUMN_DEFAULT, .defaultDetail n _ to_default =>
    if truthyStr to_default then
      .ok ("ALTER TABLE " ++ fqn change.table_name ++ " ALTER COLUMN " ++ n ++
        " SET DEFAULT " ++ pyStrOpt to_default ++ ";")
    else
      .ok ("ALTER TABLE " ++ fqn change.table_name ++ " ALTER COLUMN " ++ n ++
        " DROP DEFAULT;")
  | .ADD_CHECK_CONSTRAINT, .checkDetail c =>
    .ok ("ALTER TABLE " ++ fqn change.table_name ++ " ADD CONSTRAINT " ++ c.name ++
      " CHECK (" ++ c.expression ++ ");")
  | .DROP_CHECK_CONSTRAINT, .constraintNameDetail n =>
    .ok ("ALTER TABLE " ++ fqn change.table_name ++ " DROP CONSTRAINT IF EXISTS " ++ n ++ ";")
  | .SET_PRIMARY_KEY, .pkDetail pk =>
    let rely := if pk.rely then " RELY" else " NORELY"
    .ok ("ALTER TABLE " ++ fqn change.table_name ++ " ADD CONSTRAINT pk_" ++
      change.table_name ++ " PRIMARY KEY (" ++ join_lines ", " pk.columns ++ ")" ++
      rely ++ ";")
  | .DROP_PRIMARY_KEY, _ =>
    .ok ("ALTER TABLE " ++ fqn change.table_name ++ " DROP PRIMARY KEY IF EXISTS;")
  | .ALTER_CLUSTERING, .clusteringDetail _ to_cols =>
    if to_cols.isEmpty then
      .ok ("ALTER TABLE " ++ fqn change.table_name ++ " CLUSTER BY NONE;" ++
        "\n-- Note: Run OPTIMIZE to apply clustering changes")
    else
      .ok ("ALTER TABLE " ++ fqn change.table_name ++ " CLUSTER BY (" ++
        join_lines ", " to_cols ++ ");" ++
        "\n-- Note: Run OPTIMIZE to apply clustering changes")
  | .ALTER_TABLE_PROPERTIES, .propertiesDetail props =>
    .ok ("ALTER TABLE " ++ fqn change.table_name ++ " SET TBLPROPERTIES (" ++
      join_lines ", " (props.map (fun p =>
        "\x27" ++ p.1 ++ "\x27 = \x27" ++ escape_sql_string p.2 ++ "\x27")) ++ ");")
  | .ADD_FOREIGN_KEY, _ => .error (.codegenError "No generator for ChangeType.ADD_FOREIGN_KEY")
  | .DROP_FOREIGN_KEY, _ => .error (.codegenError "No generator for ChangeType.DROP_FOREIGN_KEY")
  | .ALTER_PARTITIONING, _ => .error (.codegenError "No generator for ChangeType.ALTER_PARTITIONING")
  | _, _ => .error (.keyError (change_type_value change.change_type))

/-- The error text built by `MigrationGenerator.generate` when the batch
contains unsupported changes: one `-- ERROR:` line per unsupported change. -/
def unsupported_error_lines (errors : List SchemaChange) : String :=
  join_lines "\n" (errors.map (fun c => "-- ERROR: " ++ pyStrOpt c.error_message))

/-- The per-change comment block of `MigrationGenerator.generate`. -/
def change_block (c : SchemaChange) (sql : String) : List String :=
  ["-- " ++ change_type_value c.change_type ++ ": " ++ c.table_name] ++
  (if c.requires_column_mapping then
    ["-- Requires: delta.columnMapping.mode = \x27name\x27"] else []) ++
  [sql, ""]

/-- `MigrationGenerator.generate` (`src/ucmt/schema/codegen.py`): reject the
whole batch if any change is unsupported, else render header, destructive
warning banner and one block per change.  `now` stands for
`datetime.now().isoformat()`. -/
def generate (changes : List SchemaChange) (description now : String) :
    Except UcmtErr String :=
  let errors := changes.filter (·.is_unsupported)
  if !errors.isEmpty then
    .error (.codegenError ("Cannot generate migration - unsupported changes:\n" ++
      unsupported_error_lines errors))
  else
    let header := ["-- Migration: Auto-generated", "-- Description: " ++ description,
      "-- Generated: " ++ now, "", "-- Variable substitution: ${catalog}, ${schema}", ""]
    let destructive := changes.filter (·.is_destructive)
    let warn := if !destructive.isEmpty then
        ["-- WARNING: This migration contains destructive changes:"] ++
        destructive.map (fun c =>
          "--   - " ++ change_type_value c.change_type ++ ": " ++ c.table_name) ++ [""]
      else []
    (changes.mapM (fun c => (generate_sql c).map (change_block c))).map
      (fun blocks => join_lines "\n" (header ++ warn ++ blocks.flatten))

/-- `AppliedMigration` dataclass (`src/ucmt/migrations/state.py`);
`applied_at` is the `datetime.now()` timestamp, carried as a string. -/
structure AppliedMigration where
  version : Nat
  name : String
  checksum : String
  applied_at : String
  success : Bool
  error : Option String := none
  deriving DecidableEq, Repr

/-- `InMemoryMigrationStateStore` (`src/ucmt/migrations/state.py`): the
`dict[int, AppliedMigration]` in insertion order, keyed by the records'
`version` fields (which the store always sets to the dict key). -/
structure InMemoryMigrationStateStore where
  applied : List AppliedMigration
  deriving DecidableEq, Repr

/-- Dict lookup `self._applied[version]` / `version in self._applied`. -/
def get_by_version (st : InMemoryMigrationStateStore) (version : Nat) :
    Option AppliedMigration :=
  st.applied.find? (fun m => m.version == version)

/-- `InMemoryMigrationStateStore.has_applied`. -/
def has_applied (st : InMemoryMigrationStateStore) (version : Nat) : Bool :=
  (get_by_version st version).isSome

/-- `InMemoryMigrationStateStore.list_applied`: values sorted ascending by
version (stable insertion sort, matching Python's stable `sorted`). -/
def insert_applied_sorted (m : AppliedMigration) :
    List AppliedMigration → List AppliedMigration
  | [] => [m]
  | x :: xs =>
    if x.version ≤ m.version then x :: insert_applied_sorted m xs
    else m :: x :: xs

/-- `InMemoryMigrationStateStore.list_applied`. -/
def list_applied (st : InMemoryMigrationStateStore) : List AppliedMigration :=
  st.applied.foldl (fun acc m => insert_applied_sorted m acc) []

/-- `InMemoryMigrationStateStore.record_applied`
(`src/ucmt/migrations/state.py`): re-recording an existing version is a no-op
when the checksum matches and a `MigrationStateConflictError` otherwise (the
raise happens before any mutation, so on error the store is unchanged). -/
def record_applied (st : InMemoryMigrationStateStore) (version : Nat)
    (name checksum : String) (success : Bool) (error : Option String)
    (now : String) : Except UcmtErr InMemoryMigrationStateStore :=
  match get_by_version st version with
  | some existing =>
    if existing.checksum ≠ checksum then
      .error (.migrationStateConflict
        ("Migration " ++ toString version ++ " already recorded with checksum " ++
         existing.checksum ++ ", but attempted to record with checksum " ++ checksum))
    else .ok st
  | none =>
    .ok { applied := st.applied ++
      [{ version := version, name := name, checksum := checksum,
         applied_at := now, success := success, error := error }] }

/-- `MigrationFile` dataclass (`src/ucmt/migrations/parser.py`); `path` is an
opaque locator carried as a string. -/
structure MigrationFile where
  version : Nat
  name : String
  path : String
  checksum : String
  sql : String
  deriving DecidableEq, Repr

/-- `PendingMigration` dataclass (`src/ucmt/migrations/runner.py`). -/
structure PendingMigration where
  version : Nat
  name : String
  path : String
  checksum : String
  sql : String
  deriving DecidableEq, Repr

/-- Stable insertion into a version-sorted migration list (a later file with
an equal version goes after the earlier one, as in Python's stable sort). -/
def insert_migration_sorted (m : MigrationFile) :
    List MigrationFile → List MigrationFile
  | [] => [m]
  | x :: xs =>
    if x.version ≤ m.version then x :: insert_migration_sorted m xs
    else m :: x :: xs

/-- `plan` (`src/ucmt/migrations/runner.py`): the migrations not yet applied,
sorted ascending by version. -/
def plan (migrations : List MigrationFile) (st : InMemoryMigrationStateStore) :
    List PendingMigration :=
  let sorted := migrations.foldl (fun acc m => insert_migration_sorted m acc) []
  sorted.filterMap (fun mf =>
    if has_applied st mf.version then none
    else some { version := mf.version, name := mf.name, path := mf.path,
                checksum := mf.checksum, sql := mf.sql })

/-- `Runner._substitute_variables` (`src/ucmt/migrations/runner.py`). -/
def substitute_variables (catalog schema sql : String) : String :=
  py_replace (py_replace sql "${catalog}" catalog) "${schema}" schema

/-- `Runner._check_checksums` (`src/ucmt/migrations/runner.py`): for every
file whose version is already recorded, the recorded checksum must match;
the first mismatch (in file order) raises `MigrationChecksumMismatchError`.
The dict built from `list_applied()` is keyed by version, so lookup in it is
`get_by_version`. -/
def check_checksums (st : InMemoryMigrationStateStore) :
    List MigrationFile → Option UcmtErr
  | [] => none
  | mf :: rest =>
    match get_by_version st mf.version with
    | some recorded =>
      if recorded.checksum ≠ mf.checksum then
        some (.migrationChecksumMismatch
          ("Migration V" ++ toString mf.version ++ "__" ++ mf.name ++
           " checksum mismatch: recorded=" ++ recorded.checksum ++
           ", file=" ++ mf.checksum))
      else check_checksums st rest
    | none => check_checksums st rest

/-- The executor callback `Executor = Callable[[str, int], None]`: it either
returns or raises (the raised exception stringified). -/
def Executor : Type := String → Nat → Except String Unit

/-- Result of a `Runner.apply` run: the final store, the ordered trace of
executor invocations `(substituted sql, version)`, and the exception the run
re-raised, if any. -/
structure ApplyResult where
  store : InMemoryMigrationStateStore
  executed : List (String × Nat)
  outcome : Option UcmtErr
  deriving Repr

/-- The per-pending-migration loop of `Runner.apply`: substitute variables,
invoke the executor, record the outcome; stop and re-raise on the first
executor failure (recording `success=False` with the stringified error
first).  On dry-run every iteration only logs. -/
def apply_loop (catalog schema now : String) (ex : Executor) (dry_run : Bool) :
    List PendingMigration → InMemoryMigrationStateStore → List (String × Nat) →
    ApplyResult
  | [], st, tr => { store := st, executed := tr, outcome := none }
  | pm :: rest, st, tr =>
    if dry_run then apply_loop catalog schema now ex dry_run rest st tr
    else
      let sql := substitute_variables catalog schema pm.sql
      match ex sql pm.version with
      | .ok _ =>
        match record_applied st pm.version pm.name pm.checksum true none now with
        | .ok st2 => apply_loop catalog schema now ex dry_run rest st2 (tr ++ [(sql, pm.version)])
        | .error e => { store := st, executed := tr ++ [(sql, pm.version)], outcome := some e }
      | .error msg =>
        match record_applied st pm.version pm.name pm.checksum false (some msg) now with
        | .ok st2 =>
          { store := st2, executed := tr ++ [(sql, pm.version)],
            outcome := some (.executorRaised msg) }
        | .error e => { store := st, executed := tr ++ [(sql, pm.version)], outcome := some e }

/-- `Runner.apply` (`src/ucmt/migrations/runner.py`): verify checksums for
the whole file set, compute the pending set, then run the loop. -/
def Runner.apply (st : InMemoryMigrationStateStore) (ex : Executor)
    (catalog schema now : String) (migrations : List MigrationFile)
    (dry_run : Bool) : ApplyResult :=
  match check_checksums st migrations with
  | some e => { store := st, executed := [], outcome := some e }
  | none =>
    let pending := plan migrations st
    apply_loop catalog schema now ex dry_run pending st []

/-! ### Basic lemmas about the embedding's dict/set helpers -/

theorem mem_dedupFirstAux {a : String} :
    ∀ {l seen : List String}, a ∈ dedupFirstAux seen l ↔ a ∈ l ∧ a ∉ seen := by
  intro l
  induction l with
  | nil => simp [dedupFirstAux]
  | cons x xs ih =>
    intro seen
    by_cases hx : seen.contains x
    · simp only [dedupFirstAux, hx, if_true, ih, List.mem_cons]
      constructor
      · rintro ⟨h1, h2⟩; exact ⟨Or.inr h1, h2⟩
      · rintro ⟨h1, h2⟩
        rcases h1 with rfl | h1
        · exact absurd (List.elem_iff.mp hx) h2
        · exact ⟨h1, h2⟩
    · simp only [dedupFirstAux, hx, Bool.false_eq_true, if_false, List.mem_cons, ih]
      have hxs : x ∉ seen := fun hs => hx (List.elem_iff.mpr hs)
      constructor
      · rintro (rfl | ⟨h1, h2⟩)
        · exact ⟨Or.inl rfl, hxs⟩
        · exact ⟨Or.inr h1, fun hs => h2 (Or.inr hs)⟩
      · rintro ⟨h1, h2⟩
        rcases h1 with rfl | h1
        · exact Or.inl rfl
        · by_cases hax : a = x
          · exact Or.inl hax
          · exact Or.inr ⟨h1, fun hs => hs.elim hax h2⟩

theorem mem_dedupFirst {a : String} {l : List String} : a ∈ dedupFirst l ↔ a ∈ l := by
  simp [dedupFirst, mem_dedupFirstAux]

/-! ### Concrete schemas used as inputs -/

/-- A one-column table `users(id INT)`. -/
def usersIntTable : Table := { name := "users", columns := [Column.make "id" "INT"] }

/-- A one-column table `users(id BIGINT)`. -/
def usersBigintTable : Table := { name := "users", columns := [Column.make "id" "BIGINT"] }

/-- A legacy table present only in the live database. -/
def tempStagingTable : Table := { name := "_temp_staging", columns := [Column.make "id" "INT"] }

/-- Source schema with an extra (undeclared) table. -/
def schemaWithLegacyTable : Schema := ⟨[("users", usersIntTable), ("_temp_staging", tempStagingTable)]⟩

/-- Declared schema containing only `users`. -/
def schemaUsersOnly : Schema := ⟨[("users", usersIntTable)]⟩

/-- `orders(amount DECIMAL(10,2))`. -/
def ordersDec10Schema : Schema :=
  ⟨[("orders", { name := "orders", columns := [Column.make "amount" "DECIMAL(10,2)"] })]⟩

/-- `orders(amount DECIMAL(12,2))`. -/
def ordersDec12Schema : Schema :=
  ⟨[("orders", { name := "orders", columns := [Column.make "amount" "DECIMAL(12,2)"] })]⟩

/-- Schema whose only table is `users(id INT)`. -/
def schemaUsersInt : Schema := ⟨[("users", usersIntTable)]⟩

/-- Schema whose only table is `users(id BIGINT)`. -/
def schemaUsersBigint : Schema := ⟨[("users", usersBigintTable)]⟩

/-- Target `users` table declaring columns in the order `id, b, a`. -/
def usersIdBATable : Table :=
  { name := "users",
    columns := [Column.make "id" "BIGINT", Column.make "b" "STRING", Column.make "a" "STRING"] }

/-- Source schema for the ADD_COLUMN ordering example. -/
def schemaUsersIdOnly : Schema := ⟨[("users", { name := "users", columns := [Column.make "id" "BIGINT"] })]⟩

/-- Target schema for the ADD_COLUMN ordering example. -/
def schemaUsersIdBA : Schema := ⟨[("users", usersIdBATable)]⟩

/-- Target schema declaring `zebra` before `alpha`. -/
def schemaZebraAlpha : Schema :=
  ⟨[("zebra", { name := "zebra", columns := [Column.make "id" "INT"] }),
    ("alpha", { name := "alpha", columns := [Column.make "id" "INT"] })]⟩

/-- The ADD_COLUMN change for column `b` of the ordering example. -/
def addColumnB : SchemaChange :=
  { change_type := .ADD_COLUMN, table_name := "users",
    details := .columnDetail (Column.make "b" "STRING") }

/-- The ADD_COLUMN change for column `a` of the ordering example. -/
def addColumnA : SchemaChange :=
  { change_type := .ADD_COLUMN, table_name := "users",
    details := .columnDetail (Column.make "a" "STRING") }

/-! ### Claim theorems -/

/-- C1: the claim (and the spec, and the repository's own test
`test_diff_ignores_extra_db_tables`) says a table present only in the source
contributes no change at all; but `SchemaDiffer.diff` emits a destructive
`DROP_TABLE` change for every source-only table, as this evaluation of the
embedded differ shows. -/
theorem C1_diff_emits_drop_table_for_source_only_table :
    diff schemaWithLegacyTable schemaUsersOnly =
      [{ change_type := .DROP_TABLE, table_name := "_temp_staging",
         is_destructive := true }] := by
  rfl

/-- C2: the claim (with the spec, the repository's own test
`test_diff_decimal_change_unsupported`, and the unused helper
`DeltaTypeRules.is_decimal_change_unsupported`) says a DECIMAL
precision/scale change is unsupported; but `_validate_type_change` strips
the parenthesized suffix before comparing, so `diff` marks
DECIMAL(10,2)→DECIMAL(12,2) as a supported `ALTER_COLUMN_TYPE` with
`is_unsupported := false` and no error message. -/
theorem C2_diff_marks_decimal_reparameterization_supported :
    diff ordersDec10Schema ordersDec12Schema =
      [{ change_type := .ALTER_COLUMN_TYPE, table_name := "orders",
         details := .typeDetail "amount" "DECIMAL(10,2)" "DECIMAL(12,2)",
         is_unsupported := false, error_message := none }] ∧
    DeltaTypeRules.is_decimal_change_unsupported "DECIMAL(10,2)" "DECIMAL(12,2)" = true := by
  exact ⟨rfl, rfl⟩

/-- Membership in the widening allow-list is the same whether the pairs are
enumerated in the source order of `_validate_type_change` or in the claim's
order. -/
theorem mem_widening_pairs_comm (x : String × String) :
    x ∈ ([("INT", "BIGINT"), ("SMALLINT", "INT"), ("SMALLINT", "BIGINT"),
          ("TINYINT", "SMALLINT"), ("TINYINT", "INT"), ("TINYINT", "BIGINT"),
          ("FLOAT", "DOUBLE")] : List (String × String)) ↔
    x ∈ ([("TINYINT", "SMALLINT"), ("TINYINT", "INT"), ("TINYINT", "BIGINT"),
          ("SMALLINT", "INT"), ("SMALLINT", "BIGINT"), ("INT", "BIGINT"),
          ("FLOAT", "DOUBLE")] : List (String × String)) := by
  simp only [List.mem_cons, List.mem_singleton]
  tauto

/-- C3: INT→BIGINT yields exactly one supported ALTER_COLUMN_TYPE change;
BIGINT→INT yields one unsupported change with a non-empty error message; and
in general `_validate_type_change` accepts a pair exactly when its
uppercase-normalized, parenthesis-stripped form is on the fixed widening
allow-list or the normalized base types coincide. -/
theorem C3_widening_allow_list_governs_type_changes :
    (diff schemaUsersInt schemaUsersBigint =
      [{ change_type := .ALTER_COLUMN_TYPE, table_name := "users",
         details := .typeDetail "id" "INT" "BIGINT",
         is_unsupported := false, error_message := none }]) ∧
    (diff schemaUsersBigint schemaUsersInt =
      [{ change_type := .ALTER_COLUMN_TYPE, table_name := "users",
         details := .typeDetail "id" "BIGINT" "INT",
         is_unsupported := true,
         error_message := some ("Type change from BIGINT to INT is not supported." ++
           " Only widening conversions are allowed.") }] ∧
     ("Type change from BIGINT to INT is not supported." ++
       " Only widening conversions are allowed." ≠ "")) ∧
    (∀ from_type to_type : String,
      (validate_type_change from_type to_type).1 = true ↔
        ((base_type from_type, base_type to_type) ∈
          ([("TINYINT", "SMALLINT"), ("TINYINT", "INT"), ("TINYINT", "BIGINT"),
            ("SMALLINT", "INT"), ("SMALLINT", "BIGINT"), ("INT", "BIGINT"),
            ("FLOAT", "DOUBLE")] : List (String × String)) ∨
         base_type from_type = base_type to_type)) := by
  refine ⟨by decide, ⟨by decide, by decide⟩, ?_⟩
  intro from_type to_type
  simp only [validate_type_change]
  by_cases h1 : widening_allowed.contains (base_type from_type, base_type to_type)
  · simp only [h1, if_true, true_iff]
    exact Or.inl ((mem_widening_pairs_comm _).mp (List.elem_iff.mp h1))
  · simp only [h1, Bool.false_eq_true, if_false]
    by_cases h2 : base_type from_type = base_type to_type
    · have hb : (base_type from_type == base_type to_type) = true := beq_iff_eq.mpr h2
      simp [hb, h2]
    · have hb : (base_type from_type == base_type to_type) = false := beq_eq_false_iff_ne.mpr h2
      simp only [hb, Bool.false_eq_true, if_false]
      constructor
      · intro h; exact absurd h (by simp)
      · rintro (hmem | heq)
        · exact absurd (List.elem_iff.mpr ((mem_widening_pairs_comm _).mpr hmem)) h1
        · exact absurd heq h2

/-- C4: the claim says ADD_COLUMN changes within a table come out ordered by
column name and CREATE_TABLE changes ordered by table name; but the differ
has no name sub-ordering anywhere: `_order_changes` is a stable sort by the
priority bucket alone, so equal-priority changes keep their generation
order, which is Python set-iteration order (here modelled as first-occurrence
order).  With target columns declared in the order `id, b, a` the ADD_COLUMN
changes come out as `b` then `a`, and with tables declared `zebra, alpha` the
CREATE_TABLE changes come out as `zebra` then `alpha`. -/
theorem C4_no_name_sub_ordering_in_diff_output :
    (diff schemaUsersIdOnly schemaUsersIdBA = [addColumnB, addColumnA]) ∧
    (diff ⟨[]⟩ schemaZebraAlpha =
      [{ change_type := .CREATE_TABLE, table_name := "zebra",
         details := .tableDetail { name := "zebra", columns := [Column.make "id" "INT"] } },
       { change_type := .CREATE_TABLE, table_name := "alpha",
         details := .tableDetail { name := "alpha", columns := [Column.make "id" "INT"] } }]) ∧
    (order_changes [addColumnB, addColumnA] = [addColumnB, addColumnA]) := by
  exact ⟨rfl, rfl, rfl⟩

/-- An ADD_COLUMN change for a non-nullable column without a default; it is
not marked unsupported by the differ's flags. -/
def notNullNoDefaultAdd : SchemaChange :=
  { change_type := .ADD_COLUMN, table_name := "users",
    details := .columnDetail { name := "x", type := "INT", nullable := false } }

/-- C6 counterexample: a batch with no unsupported change on which `generate`
still does not return a rendered SQL document: adding a non-nullable column
without a default raises `CodegenError` during rendering. -/
theorem C6_counterexample_generate_errors_without_unsupported :
    notNullNoDefaultAdd.is_unsupported = false ∧
    generate [notNullNoDefaultAdd] "d" "2024-01-01T00:00:00" =
      .error (.codegenError "Cannot add non-nullable column \x27x\x27 without a default.") := by
  exact ⟨rfl, rfl⟩

/-! ### Code generation: batch rejection (C6) -/

theorem data_infix_join_lines (sep s : String) :
    ∀ (l : List String), s ∈ l → s.data <:+: (join_lines sep l).data := by
  intro l
  induction l with
  | nil => intro h; cases h
  | cons x xs ih =>
    intro h
    rcases List.mem_cons.mp h with rfl | h
    · cases xs with
      | nil => exact List.infix_refl _
      | cons y ys =>
        have hd : (join_lines sep (s :: y :: ys)).data =
            s.data ++ (sep.data ++ (join_lines sep (y :: ys)).data) := by
          show (s ++ sep ++ join_lines sep (y :: ys)).data = _
          rw [String.data_append, String.data_append, List.append_assoc]
        rw [hd]
        exact (List.prefix_append s.data _).isInfix
    · cases xs with
      | nil => cases h
      | cons y ys =>
        have hd : (join_lines sep (x :: y :: ys)).data =
            (x.data ++ sep.data) ++ (join_lines sep (y :: ys)).data := by
          show (x ++ sep ++ join_lines sep (y :: ys)).data = _
          rw [String.data_append, String.data_append]
        rw [hd]
        exact (ih h).trans (List.suffix_append _ _).isInfix

theorem mapM_except_ok {α β : Type} (f : α → Except UcmtErr β) :
    ∀ (l : List α), (∀ a ∈ l, ∃ b, f a = .ok b) → ∃ ys, l.mapM f = Except.ok ys := by
  intro l
  induction l with
  | nil => intro _; exact ⟨[], rfl⟩
  | cons a as ih =>
    intro h
    obtain ⟨b, hb⟩ := h a (List.mem_cons_self a as)
    obtain ⟨ys, hys⟩ := ih (fun x hx => h x (List.mem_cons_of_mem a hx))
    refine ⟨b :: ys, ?_⟩
    rw [List.mapM_cons, hb, hys]
    rfl

/-- C6 (amended): `generate` rejects the whole batch with a `CodegenError`
whose message enumerates every unsupported change's explanation whenever any
change is unsupported; when no change is unsupported it returns the rendered
document, provided per-change rendering itself succeeds (which it does not
for an ADD_COLUMN of a non-nullable column without a default, or for a
change kind with no generator — see the counterexample). -/
theorem C6_generate_rejects_whole_batch_on_unsupported :
    ∀ (changes : List SchemaChange) (description now : String),
      ((∃ c ∈ changes, c.is_unsupported = true) →
        ∃ msg, generate changes description now = .error (.codegenError msg) ∧
          ∀ c ∈ changes, c.is_unsupported = true →
            ("-- ERROR: " ++ pyStrOpt c.error_message).data <:+: msg.data) ∧
      ((∀ c ∈ changes, c.is_unsupported = false) →
        (∀ c ∈ changes, ∃ s, generate_sql c = .ok s) →
        ∃ doc, generate changes description now = .ok doc) := by
  intro changes description now
  constructor
  · rintro ⟨c0, hc0, hu0⟩
    have hne : changes.filter (·.is_unsupported) ≠ [] := by
      intro hnil
      exact (List.filter_eq_nil_iff.mp hnil) c0 hc0 hu0
    have hemp : (changes.filter (·.is_unsupported)).isEmpty = false := by
      cases hF : changes.filter (·.is_unsupported) with
      | nil => exact absurd hF hne
      | cons => rfl
    refine ⟨"Cannot generate migration - unsupported changes:\n" ++
      unsupported_error_lines (changes.filter (·.is_unsupported)), ?_, ?_⟩
    · unfold generate
      simp only [hemp, Bool.not_false, if_true]
    · intro c hc hu
      have hd : ("Cannot generate migration - unsupported changes:\n" ++
          unsupported_error_lines (changes.filter (·.is_unsupported))).data =
          ("Cannot generate migration - unsupported changes:\n").data ++
          (unsupported_error_lines (changes.filter (·.is_unsupported))).data :=
        String.data_append _ _
      rw [hd]
      refine List.IsInfix.trans ?_ (List.suffix_append _ _).isInfix
      exact data_infix_join_lines "\n" _ _
        (List.mem_map_of_mem _ (List.mem_filter.mpr ⟨hc, hu⟩))
  · intro hall hok
    have hfl : changes.filter (·.is_unsupported) = [] :=
      List.filter_eq_nil_iff.mpr (fun a ha hu => by rw [hall a ha] at hu; cases hu)
    unfold generate
    rw [hfl]
    obtain ⟨blocks, hblocks⟩ := mapM_except_ok
      (fun c => (generate_sql c).map (change_block c)) changes
      (fun c hc => by
        obtain ⟨s, hs⟩ := hok c hc
        refine ⟨change_block c s, ?_⟩
        show Except.map (change_block c) (generate_sql c) = Except.ok (change_block c s)
        rw [hs]
        rfl)
    simp only [List.isEmpty_nil, Bool.not_true, Bool.false_eq_true, if_false, hblocks]
    exact ⟨_, rfl⟩

/-- An always-unsupported partitioning change, as the differ emits it. -/
def unsupportedPartitioningChange : SchemaChange :=
  { change_type := .ALTER_PARTITIONING, table_name := "t",
    is_unsupported := true, error_message := some "boom" }

/-- A plain CREATE_TABLE change that renders without error. -/
def simpleCreateChange : SchemaChange :=
  { change_type := .CREATE_TABLE, table_name := "t",
    details := .tableDetail { name := "t", columns := [Column.make "id" "INT"] } }

theorem C6_generate_rejects_whole_batch_on_unsupported_witness :
    (∃ msg, generate [unsupportedPartitioningChange] "d" "t0" =
        .error (.codegenError msg) ∧
      ∀ c ∈ [unsupportedPartitioningChange], c.is_unsupported = true →
        ("-- ERROR: " ++ pyStrOpt c.error_message).data <:+: msg.data) ∧
    (∃ doc, generate [simpleCreateChange] "d" "t0" = .ok doc) := by
  constructor
  · exact (C6_generate_rejects_whole_batch_on_unsupported
      [unsupportedPartitioningChange] "d" "t0").1
      ⟨unsupportedPartitioningChange, List.mem_singleton.mpr rfl, rfl⟩
  · exact (C6_generate_rejects_whole_batch_on_unsupported
      [simpleCreateChange] "d" "t0").2
      (fun c hc => by rcases List.mem_singleton.mp hc with rfl; rfl)
      (fun c hc => by rcases List.mem_singleton.mp hc with rfl; exact ⟨_, rfl⟩)

/-! ### State store idempotency (C7) -/

/-- C7: re-recording an already recorded version with the same checksum is a
no-op that returns the store unchanged (so the first outcome — success flag
and error text — is retained whatever the new call passes, and
`list_applied` is unchanged in length and content); a different checksum
raises `MigrationStateConflictError`, and since the raise happens before any
mutation no new store is produced, leaving the stored state untouched. -/
theorem C7_record_applied_same_checksum_noop_different_conflicts :
    ∀ (st : InMemoryMigrationStateStore) (v : Nat) (existing : AppliedMigration)
      (n c : String) (s : Bool) (e : Option String) (now : String),
      get_by_version st v = some existing →
      ((existing.checksum = c → record_applied st v n c s e now = .ok st) ∧
       (existing.checksum ≠ c →
         ∃ msg, record_applied st v n c s e now = .error (.migrationStateConflict msg))) := by
  intro st v existing n c s e now h
  unfold record_applied
  rw [h]
  constructor
  · intro hc
    simp [hc]
  · intro hc
    refine ⟨"Migration " ++ toString v ++ " already recorded with checksum " ++
      existing.checksum ++ ", but attempted to record with checksum " ++ c, ?_⟩
    simp [hc]

/-- A store with one successfully applied migration. -/
def storeWithV1 : InMemoryMigrationStateStore :=
  ⟨[{ version := 1, name := "one", checksum := "abc", applied_at := "t0",
      success := true, error := none }]⟩

theorem C7_record_applied_same_checksum_noop_different_conflicts_witness :
    (record_applied storeWithV1 1 "one2" "abc" false (some "late failure") "t1" =
      .ok storeWithV1) ∧
    (∃ msg, record_applied storeWithV1 1 "one2" "def" true none "t1" =
      .error (.migrationStateConflict msg)) := by
  constructor
  · exact (C7_record_applied_same_checksum_noop_different_conflicts storeWithV1 1
      { version := 1, name := "one", checksum := "abc", applied_at := "t0",
        success := true, error := none }
      "one2" "abc" false (some "late failure") "t1" rfl).1 rfl
  · exact (C7_record_applied_same_checksum_noop_different_conflicts storeWithV1 1
      { version := 1, name := "one", checksum := "abc", applied_at := "t0",
        success := true, error := none }
      "one2" "def" true none "t1" rfl).2 (by decide)

/-! ### Runner fail-fast (C9) -/

/-- C9: on a fresh store with pending versions 1, 2, 3, if the executor
succeeds on version 1 and raises on version 2, then afterwards exactly two
`AppliedMigration` records exist — version 1 with `success := true` and
version 2 with `success := false` carrying the stringified executor error —
the executor was invoked exactly for versions 1 and 2 (never 3), and the
error is re-raised to the caller. -/
theorem C9_runner_fail_fast_records_and_stops :
    ∀ (ex : Executor) (catalog schema now e : String)
      (n1 n2 n3 p1 p2 p3 c1 c2 c3 s1 s2 s3 : String),
      ex (substitute_variables catalog schema s1) 1 = .ok () →
      ex (substitute_variables catalog schema s2) 2 = .error e →
      Runner.apply ⟨[]⟩ ex catalog schema now
        [⟨1, n1, p1, c1, s1⟩, ⟨2, n2, p2, c2, s2⟩, ⟨3, n3, p3, c3, s3⟩] false =
      { store := ⟨[{ version := 1, name := n1, checksum := c1, applied_at := now,
                     success := true, error := none },
                   { version := 2, name := n2, checksum := c2, applied_at := now,
                     success := false, error := some e }]⟩,
        executed := [(substitute_variables catalog schema s1, 1),
                     (substitute_variables catalog schema s2, 2)],
        outcome := some (.executorRaised e) } := by
  intro ex catalog schema now e n1 n2 n3 p1 p2 p3 c1 c2 c3 s1 s2 s3 h1 h2
  unfold Runner.apply
  have hc : check_checksums ⟨[]⟩
      [⟨1, n1, p1, c1, s1⟩, ⟨2, n2, p2, c2, s2⟩, ⟨3, n3, p3, c3, s3⟩] = none := rfl
  rw [hc]
  have hplan : plan [⟨1, n1, p1, c1, s1⟩, ⟨2, n2, p2, c2, s2⟩, ⟨3, n3, p3, c3, s3⟩]
      ⟨[]⟩ = [⟨1, n1, p1, c1, s1⟩, ⟨2, n2, p2, c2, s2⟩, ⟨3, n3, p3, c3, s3⟩] := rfl
  rw [hplan]
  have hrec1 : record_applied ⟨[]⟩ 1 n1 c1 true none now =
      .ok ⟨[{ version := 1, name := n1, checksum := c1, applied_at := now,
              success := true, error := none }]⟩ := rfl
  have hrec2 : record_applied
      ⟨[{ version := 1, name := n1, checksum := c1, applied_at := now,
          success := true, error := none }]⟩ 2 n2 c2 false (some e) now =
      .ok ⟨[{ version := 1, name := n1, checksum := c1, applied_at := now,
              success := true, error := none },
            { version := 2, name := n2, checksum := c2, applied_at := now,
              success := false, error := some e }]⟩ := rfl
  simp only [apply_loop, Bool.false_eq_true, if_false, h1, h2, hrec1, hrec2,
    List.nil_append, List.singleton_append]

theorem C9_runner_fail_fast_records_and_stops_witness :
    Runner.apply ⟨[]⟩ (fun _ v => if v == 2 then .error "boom" else .ok ())
      "cat" "sch" "t0"
      [⟨1, "a", "pa", "ca", "sa"⟩, ⟨2, "b", "pb", "cb", "sb"⟩, ⟨3, "c", "pc", "cc", "sc"⟩]
      false =
    { store := ⟨[{ version := 1, name := "a", checksum := "ca", applied_at := "t0",
                   success := true, error := none },
                 { version := 2, name := "b", checksum := "cb", applied_at := "t0",
                   success := false, error := some "boom" }]⟩,
      executed := [(substitute_variables "cat" "sch" "sa", 1),
                   (substitute_variables "cat" "sch" "sb", 2)],
      outcome := some (.executorRaised "boom") } := by
  exact C9_runner_fail_fast_records_and_stops
    (fun _ v => if v == 2 then .error "boom" else .ok ())
    "cat" "sch" "t0" "boom" "a" "b" "c" "pa" "pb" "pc" "ca" "cb" "cc" "sa" "sb" "sc"
    rfl rfl

/-! ### Lookup lemmas for the dict embeddings -/

theorem rev_find_name_isSome_iff {α : Type} (nameF : α → String) (l : List α) (n : String) :
    ((l.reverse).find? (fun c => nameF c == n)).isSome ↔ n ∈ l.map nameF := by
  constructor
  · intro h
    obtain ⟨c, hc, hp⟩ := List.find?_isSome.mp h
    exact List.mem_map.mpr ⟨c, List.mem_reverse.mp hc, beq_iff_eq.mp hp⟩
  · intro h
    obtain ⟨c, hc, hn⟩ := List.mem_map.mp h
    exact List.find?_isSome.mpr ⟨c, List.mem_reverse.mpr hc, beq_iff_eq.mpr hn⟩

theorem col_dict_get_isSome_iff {cols : List Column} {n : String} :
    (col_dict_get cols n).isSome ↔ n ∈ cols.map (·.name) := by
  unfold col_dict_get
  exact rev_find_name_isSome_iff (·.name) cols n

theorem check_dict_get_isSome_iff {cs : List CheckConstraint} {n : String} :
    (check_dict_get cs n).isSome ↔ n ∈ cs.map (·.name) := by
  unfold check_dict_get
  exact rev_find_name_isSome_iff (·.name) cs n

theorem find_fst_isSome_iff {β : Type} (l : List (String × β)) (k : String) :
    (l.find? (fun p => p.1 == k)).isSome ↔ k ∈ l.map Prod.fst := by
  constructor
  · intro h
    obtain ⟨p, hp, hk⟩ := List.find?_isSome.mp h
    exact List.mem_map.mpr ⟨p, hp, beq_iff_eq.mp hk⟩
  · intro h
    obtain ⟨p, hp, hk⟩ := List.mem_map.mp h
    exact List.find?_isSome.mpr ⟨p, hp, beq_iff_eq.mpr hk⟩

theorem get_table_isSome_iff {s : Schema} {k : String} :
    (s.get_table k).isSome ↔ k ∈ s.tables.map Prod.fst := by
  unfold Schema.get_table
  cases hf : s.tables.find? (fun p => p.1 == k) with
  | none =>
    constructor
    · intro h; cases h
    · intro hm
      have h2 := (find_fst_isSome_iff s.tables k).mpr hm
      rw [hf] at h2
      cases h2
  | some p =>
    constructor
    · intro _
      exact (find_fst_isSome_iff s.tables k).mp (by rw [hf]; rfl)
    · intro _
      rfl

theorem get_table_some_mem {s : Schema} {k : String} {t : Table}
    (h : s.get_table k = some t) : ∃ p ∈ s.tables, p.2 = t := by
  unfold Schema.get_table at h
  cases hf : s.tables.find? (fun p => p.1 == k) with
  | none => rw [hf] at h; cases h
  | some p =>
    rw [hf] at h
    exact ⟨p, List.mem_of_find?_eq_some hf, by cases h; rfl⟩

theorem props_get_of_mem_nodup :
    ∀ {l : List (String × String)} {k v : String},
      (l.map Prod.fst).Nodup → (k, v) ∈ l → props_get l k = some v := by
  intro l
  induction l with
  | nil => intro k v _ hm; cases hm
  | cons p ps ih =>
    intro k v hnd hm
    rw [List.map_cons] at hnd
    obtain ⟨hp1, hnd'⟩ := List.nodup_cons.mp hnd
    rcases List.mem_cons.mp hm with rfl | hm'
    · simp [props_get]
    · have hk : k ∈ ps.map Prod.fst := List.mem_map.mpr ⟨(k, v), hm', rfl⟩
      have hne : (p.1 == k) = false :=
        beq_eq_false_iff_ne.mpr (fun he => hp1 (he ▸ hk))
      simp only [props_get, hne, Bool.false_eq_true, if_false]
      exact ih hnd' hm' 

/-! ### Per-component emptiness of the table diff on equal tables -/

theorem diff_column_refl (tn : String) (c : Column) : diff_column tn c c = [] := by
  simp [diff_column]

theorem diff_columns_nil {s t : Table}
    (hcol : col_dict_eqb s.columns t.columns = true) : diff_columns s t = [] := by
  unfold col_dict_eqb at hcol
  rw [Bool.and_eq_true] at hcol
  obtain ⟨h1, h2⟩ := hcol
  rw [List.all_eq_true] at h1 h2
  have hget : ∀ n, n ∈ col_dict_keys s.columns ∨ n ∈ col_dict_keys t.columns →
      col_dict_get s.columns n = col_dict_get t.columns n := by
    rintro n (hn | hn)
    · exact (eq_of_beq (h1 n hn)).symm
    · exact eq_of_beq (h2 n hn)
  have hsub_ts : ∀ n ∈ col_dict_keys t.columns, (col_dict_keys s.columns).contains n := by
    intro n hn
    have hsome : (col_dict_get t.columns n).isSome :=
      col_dict_get_isSome_iff.mpr (mem_dedupFirst.mp hn)
    rw [← hget n (Or.inr hn)] at hsome
    exact List.elem_iff.mpr (mem_dedupFirst.mpr (col_dict_get_isSome_iff.mp hsome))
  have hsub_st : ∀ n ∈ col_dict_keys s.columns, (col_dict_keys t.columns).contains n := by
    intro n hn
    have hsome : (col_dict_get s.columns n).isSome :=
      col_dict_get_isSome_iff.mpr (mem_dedupFirst.mp hn)
    rw [hget n (Or.inl hn)] at hsome
    exact List.elem_iff.mpr (mem_dedupFirst.mpr (col_dict_get_isSome_iff.mp hsome))
  have hadds : ((col_dict_keys t.columns).filter
      (fun n => !(col_dict_keys s.columns).contains n)) = [] :=
    List.filter_eq_nil_iff.mpr (fun n hn => by rw [hsub_ts n hn]; simp)
  have hdrops : ((col_dict_keys s.columns).filter
      (fun n => !(col_dict_keys t.columns).contains n)) = [] :=
    List.filter_eq_nil_iff.mpr (fun n hn => by rw [hsub_st n hn]; simp)
  have hcommons : ((col_dict_keys s.columns).filter
      (fun n => (col_dict_keys t.columns).contains n)).flatMap
      (fun n =>
        match col_dict_get s.columns n, col_dict_get t.columns n with
        | some sc, some tc => diff_column s.name sc tc
        | _, _ => []) = [] := by
    refine List.flatMap_eq_nil_iff.mpr (fun n hn => ?_)
    have hn' := List.mem_filter.mp hn
    have hsome : (col_dict_get s.columns n).isSome :=
      col_dict_get_isSome_iff.mpr (mem_dedupFirst.mp hn'.1)
    obtain ⟨c, hc⟩ := Option.isSome_iff_exists.mp hsome
    have hc2 : col_dict_get t.columns n = some c := by
      rw [← hget n (Or.inl hn'.1)]; exact hc
    rw [hc, hc2]
    exact diff_column_refl s.name c
  unfold diff_columns
  simp only [hadds, hdrops, hcommons, List.filterMap_nil, List.map_nil,
    List.nil_append, List.append_nil]

theorem diff_constraints_nil {s t : Table}
    (hpk : s.primary_key = t.primary_key)
    (hck : check_dict_eqb s.check_constraints t.check_constraints = true) :
    diff_constraints s t = [] := by
  unfold check_dict_eqb at hck
  rw [Bool.and_eq_true] at hck
  obtain ⟨h1, h2⟩ := hck
  rw [List.all_eq_true] at h1 h2
  have hget : ∀ n, n ∈ check_dict_keys s.check_constraints ∨
      n ∈ check_dict_keys t.check_constraints →
      check_dict_get s.check_constraints n = check_dict_get t.check_constraints n := by
    rintro n (hn | hn)
    · exact (eq_of_beq (h1 n hn)).symm
    · exact eq_of_beq (h2 n hn)
  have hsub_ts : ∀ n ∈ check_dict_keys t.check_constraints,
      (check_dict_keys s.check_constraints).contains n := by
    intro n hn
    have hsome : (check_dict_get t.check_constraints n).isSome :=
      check_dict_get_isSome_iff.mpr (mem_dedupFirst.mp hn)
    rw [← hget n (Or.inr hn)] at hsome
    exact List.elem_iff.mpr (mem_dedupFirst.mpr (check_dict_get_isSome_iff.mp hsome))
  have hsub_st : ∀ n ∈ check_dict_keys s.check_constraints,
      (check_dict_keys t.check_constraints).contains n := by
    intro n hn
    have hsome : (check_dict_get s.check_constraints n).isSome :=
      check_dict_get_isSome_iff.mpr (mem_dedupFirst.mp hn)
    rw [hget n (Or.inl hn)] at hsome
    exact List.elem_iff.mpr (mem_dedupFirst.mpr (check_dict_get_isSome_iff.mp hsome))
  have hadds : ((check_dict_keys t.check_constraints).filter
      (fun n => !(check_dict_keys s.check_constraints).contains n)) = [] :=
    List.filter_eq_nil_iff.mpr (fun n hn => by rw [hsub_ts n hn]; simp)
  have hdrops : ((check_dict_keys s.check_constraints).filter
      (fun n => !(check_dict_keys t.check_constraints).contains n)) = [] :=
    List.filter_eq_nil_iff.mpr (fun n hn => by rw [hsub_st n hn]; simp)
  unfold diff_constraints
  simp only [hpk, ne_eq, not_true_eq_false, if_false, hadds, hdrops,
    List.filterMap_nil, List.map_nil, List.nil_append, List.append_nil]

theorem diff_clustering_nil {s t : Table}
    (h : str_set_eqb s.liquid_clustering t.liquid_clustering = true) :
    diff_clustering s t = [] := by
  simp [diff_clustering, h]

theorem diff_partitioning_nil {s t : Table}
    (h : str_set_eqb s.partitioned_by t.partitioned_by = true) :
    diff_partitioning s t = [] := by
  simp [diff_partitioning, h]

theorem diff_properties_nil {s t : Table}
    (hpr : props_dict_eqb s.table_properties t.table_properties = true)
    (hnd : (t.table_properties.map Prod.fst).Nodup) :
    diff_properties s t = [] := by
  unfold props_dict_eqb at hpr
  rw [Bool.and_eq_true] at hpr
  obtain ⟨_, h2⟩ := hpr
  rw [List.all_eq_true] at h2
  have hchanged : (t.table_properties.filter
      (fun p => props_get s.table_properties p.1 ≠ some p.2)) = [] := by
    refine List.filter_eq_nil_iff.mpr (fun p hp => ?_)
    have hkt : props_get t.table_properties p.1 = some p.2 :=
      props_get_of_mem_nodup hnd (by cases p; exact hp)
    have hks : props_get s.table_properties p.1 = props_get t.table_properties p.1 :=
      eq_of_beq (h2 p.1 (List.mem_map.mpr ⟨p, hp, rfl⟩))
    simp [hks, hkt]
  unfold diff_properties
  rw [hchanged]
  rfl

theorem diff_table_nil {s t : Table}
    (hpk : s.primary_key = t.primary_key)
    (hck : check_dict_eqb s.check_constraints t.check_constraints = true)
    (hlc : str_set_eqb s.liquid_clustering t.liquid_clustering = true)
    (hpb : str_set_eqb s.partitioned_by t.partitioned_by = true)
    (hpr : props_dict_eqb s.table_properties t.table_properties = true)
    (hcol : col_dict_eqb s.columns t.columns = true)
    (hnd : (t.table_properties.map Prod.fst).Nodup) :
    diff_table s t = [] := by
  unfold diff_table
  rw [diff_columns_nil hcol, diff_constraints_nil hpk hck, diff_clustering_nil hlc,
    diff_partitioning_nil hpb, diff_properties_nil hpr hnd]
  rfl

theorem order_changes_nil : order_changes [] = [] := by
  simp [order_changes]

theorem str_set_eqb_refl (l : List String) : str_set_eqb l l = true := by
  unfold str_set_eqb
  rw [Bool.and_eq_true]
  constructor <;> (rw [List.all_eq_true]; intro x hx; exact List.elem_iff.mpr hx)

theorem props_dict_eqb_refl (l : List (String × String)) : props_dict_eqb l l = true := by
  unfold props_dict_eqb
  rw [Bool.and_eq_true]
  constructor <;> (rw [List.all_eq_true]; intro x _; exact beq_self_eq_true _)

theorem col_dict_eqb_refl (l : List Column) : col_dict_eqb l l = true := by
  unfold col_dict_eqb
  rw [Bool.and_eq_true]
  constructor <;> (rw [List.all_eq_true]; intro x _; exact beq_self_eq_true _)

theorem check_dict_eqb_refl (l : List CheckConstraint) : check_dict_eqb l l = true := by
  unfold check_dict_eqb
  rw [Bool.and_eq_true]
  constructor <;> (rw [List.all_eq_true]; intro x _; exact beq_self_eq_true _)

/-! ### Equal schemas diff to nothing (C5) -/

/-- C5: whenever source and target are equal under the defined equality
(`Schema` dataclass equality: same table-name set and same-named tables equal
by `Table.__eq__`, which ignores column/clustering/partition order but
compares primary key, constraints, properties and comment), `diff` returns
the empty list.  The `Nodup` hypothesis is the representation invariant of
the embedded `table_properties` dict (a Python dict cannot carry a duplicate
key). -/
theorem C5_diff_returns_empty_on_equal_schemas :
    ∀ (source target : Schema),
      (∀ p ∈ target.tables, (p.2.table_properties.map Prod.fst).Nodup) →
      schemaEqb source target = true →
      diff source target = [] := by
  intro source target hwf heq
  unfold schemaEqb at heq
  rw [Bool.and_eq_true] at heq
  obtain ⟨h1, h2⟩ := heq
  rw [List.all_eq_true] at h1 h2
  have hmatch : ∀ k, k ∈ source.tables.map Prod.fst ∨ k ∈ target.tables.map Prod.fst →
      ∃ ta tb, source.get_table k = some ta ∧ target.get_table k = some tb ∧
        tableEqb ta tb = true := by
    intro k hk
    have hb : (match source.get_table k, target.get_table k with
        | some ta, some tb => tableEqb ta tb
        | _, _ => false) = true := by
      rcases hk with hk | hk
      · exact h1 k hk
      · exact h2 k hk
    cases hsa : source.get_table k with
    | none =>
      cases hsb : target.get_table k with
      | none => rw [hsa, hsb] at hb; exact Bool.noConfusion hb
      | some tb => rw [hsa, hsb] at hb; exact Bool.noConfusion hb
    | some ta =>
      cases hsb : target.get_table k with
      | none => rw [hsa, hsb] at hb; exact Bool.noConfusion hb
      | some tb =>
        rw [hsa, hsb] at hb
        exact ⟨ta, tb, rfl, rfl, hb⟩
  have hkeys_ts : ∀ n ∈ target.table_names, (source.table_names).contains n := by
    intro n hn
    obtain ⟨ta, tb, hsa, _, _⟩ := hmatch n (Or.inr (mem_dedupFirst.mp hn))
    have hs : (source.get_table n).isSome := by rw [hsa]; rfl
    exact List.elem_iff.mpr (mem_dedupFirst.mpr (get_table_isSome_iff.mp hs))
  have hkeys_st : ∀ n ∈ source.table_names, (target.table_names).contains n := by
    intro n hn
    obtain ⟨ta, tb, _, hsb, _⟩ := hmatch n (Or.inl (mem_dedupFirst.mp hn))
    have hs : (target.get_table n).isSome := by rw [hsb]; rfl
    exact List.elem_iff.mpr (mem_dedupFirst.mpr (get_table_isSome_iff.mp hs))
  have hcreates : (target.table_names.filter
      (fun n => !(source.table_names).contains n)) = [] :=
    List.filter_eq_nil_iff.mpr (fun n hn => by rw [hkeys_ts n hn]; simp)
  have hdrops : (source.table_names.filter
      (fun n => !(target.table_names).contains n)) = [] :=
    List.filter_eq_nil_iff.mpr (fun n hn => by rw [hkeys_st n hn]; simp)
  have hcommons : ((source.table_names.filter
      (fun n => (target.table_names).contains n)).flatMap
      (fun n =>
        match source.get_table n, target.get_table n with
        | some s, some t => diff_table s t
        | _, _ => [])) = [] := by
    refine List.flatMap_eq_nil_iff.mpr (fun n hn => ?_)
    have hn1 := (List.mem_filter.mp hn).1
    obtain ⟨ta, tb, hsa, hsb, htb⟩ := hmatch n (Or.inl (mem_dedupFirst.mp hn1))
    rw [hsa, hsb]
    obtain ⟨p, hp, hpe⟩ := get_table_some_mem hsb
    unfold tableEqb at htb
    simp only [Bool.and_eq_true] at htb
    obtain ⟨⟨⟨⟨⟨⟨⟨hname, hpk⟩, hck⟩, hlc⟩, hpb⟩, hpr⟩, hcm⟩, hcol⟩ := htb
    exact diff_table_nil (eq_of_beq hpk) hck hlc hpb hpr hcol
      (by rw [← hpe]; exact hwf p hp)
  unfold diff
  simp only [hcreates, hdrops, hcommons, List.filterMap_nil, List.map_nil,
    List.nil_append, List.append_nil]
  exact order_changes_nil

/-- A declared table with every feature populated, for the C5 witness. -/
def richTableA : Table :=
  { name := "users",
    columns := [Column.make "id" "INT", Column.make "email" "STRING"],
    primary_key := some { columns := ["id"], rely := true },
    check_constraints := [{ name := "chk_id", expression := "id > 0" }],
    liquid_clustering := ["id"],
    partitioned_by := [],
    table_properties := [("delta.appendOnly", "true")],
    comment := some "main table" }

/-- The same table with its column list reordered (equal to `richTableA`
under `Table.__eq__`). -/
def richTableB : Table :=
  { name := "users",
    columns := [Column.make "email" "STRING", Column.make "id" "INT"],
    primary_key := some { columns := ["id"], rely := true },
    check_constraints := [{ name := "chk_id", expression := "id > 0" }],
    liquid_clustering := ["id"],
    partitioned_by := [],
    table_properties := [("delta.appendOnly", "true")],
    comment := some "main table" }

theorem C5_diff_returns_empty_on_equal_schemas_witness :
    diff ⟨[("users", richTableA)]⟩ ⟨[("users", richTableB)]⟩ = [] :=
  C5_diff_returns_empty_on_equal_schemas ⟨[("users", richTableA)]⟩
    ⟨[("users", richTableB)]⟩ (by decide) (by decide)

/-! ### Checksum drift aborts the whole run (C8) -/

theorem check_checksums_finds_mismatch :
    ∀ (migs : List MigrationFile) (st : InMemoryMigrationStateStore),
      (∃ mf ∈ migs, ∃ rec, get_by_version st mf.version = some rec ∧
        rec.checksum ≠ mf.checksum) →
      ∃ m, check_checksums st migs = some (.migrationChecksumMismatch m) := by
  intro migs st
  induction migs with
  | nil =>
    rintro ⟨mf, hmf, _⟩
    exact absurd hmf (List.not_mem_nil mf)
  | cons x xs ih =>
    rintro ⟨mf, hmf, rec, hrec, hne⟩
    rcases List.mem_cons.mp hmf with rfl | hmf'
    · refine ⟨"Migration V" ++ toString mf.version ++ "__" ++ mf.name ++
        " checksum mismatch: recorded=" ++ rec.checksum ++ ", file=" ++ mf.checksum, ?_⟩
      simp only [check_checksums, hrec]
      rw [if_pos hne]
    · cases hgb : get_by_version st x.version with
      | none =>
        obtain ⟨m, hm⟩ := ih ⟨mf, hmf', rec, hrec, hne⟩
        exact ⟨m, by simp only [check_checksums, hgb]; exact hm⟩
      | some r =>
        by_cases hrc : r.checksum ≠ x.checksum
        · refine ⟨"Migration V" ++ toString x.version ++ "__" ++ x.name ++
            " checksum mismatch: recorded=" ++ r.checksum ++ ", file=" ++ x.checksum, ?_⟩
          simp only [check_checksums, hgb]
          rw [if_pos hrc]
        · obtain ⟨m, hm⟩ := ih ⟨mf, hmf', rec, hrec, hne⟩
          exact ⟨m, by simp only [check_checksums, hgb]; rw [if_neg hrc]; exact hm⟩

/-- C8: if any migration file's version is already recorded with a different
checksum, `apply` raises `MigrationChecksumMismatchError`, the executor is
never invoked for any migration of the run, and nothing is recorded (the
store comes back unchanged). -/
theorem C8_checksum_mismatch_aborts_before_any_execution :
    ∀ (st : InMemoryMigrationStateStore) (ex : Executor) (catalog schema now : String)
      (migrations : List MigrationFile) (dry_run : Bool),
      (∃ mf ∈ migrations, ∃ rec, get_by_version st mf.version = some rec ∧
        rec.checksum ≠ mf.checksum) →
      ∃ msg, Runner.apply st ex catalog schema now migrations dry_run =
        { store := st, executed := [],
          outcome := some (.migrationChecksumMismatch msg) } := by
  intro st ex catalog schema now migrations dry h
  obtain ⟨m, hm⟩ := check_checksums_finds_mismatch migrations st h
  refine ⟨m, ?_⟩
  unfold Runner.apply
  rw [hm]

theorem C8_checksum_mismatch_aborts_before_any_execution_witness :
    ∃ msg, Runner.apply storeWithV1 (fun _ _ => .ok ()) "c" "s" "t1"
      [{ version := 1, name := "one", path := "p", checksum := "zzz", sql := "q" }] false =
      { store := storeWithV1, executed := [],
        outcome := some (.migrationChecksumMismatch msg) } :=
  C8_checksum_mismatch_aborts_before_any_execution storeWithV1 (fun _ _ => .ok ())
    "c" "s" "t1"
    [{ version := 1, name := "one", path := "p", checksum := "zzz", sql := "q" }] false
    ⟨{ version := 1, name := "one", path := "p", checksum := "zzz", sql := "q" },
     List.mem_singleton.mpr rfl,
     { version := 1, name := "one", checksum := "abc", applied_at := "t0",
       success := true, error := none },
     rfl, by decide⟩

/-! ### Comment-only table changes are invisible to the differ (C10) -/

/-- C10: two same-named tables that differ only in their comment produce an
empty diff — the per-table diff never compares comments — even though
`Table.__eq__` does compare comments, so an empty diff does not imply schema
equality. -/
theorem C10_comment_only_difference_never_diffed :
    ∀ (s t : Table) (k : String),
      s.name = t.name → s.columns = t.columns → s.primary_key = t.primary_key →
      s.check_constraints = t.check_constraints →
      s.liquid_clustering = t.liquid_clustering →
      s.partitioned_by = t.partitioned_by →
      s.table_properties = t.table_properties →
      (t.table_properties.map Prod.fst).Nodup →
      (diff ⟨[(k, s)]⟩ ⟨[(k, t)]⟩ = [] ∧
       (s.comment ≠ t.comment → tableEqb s t = false)) := by
  intro s t k hn hc hpk hck hlc hpb hpr hnd
  constructor
  · have htab : diff_table s t = [] :=
      diff_table_nil hpk (by rw [hck]; exact check_dict_eqb_refl _)
        (by rw [hlc]; exact str_set_eqb_refl _)
        (by rw [hpb]; exact str_set_eqb_refl _)
        (by rw [hpr]; exact props_dict_eqb_refl _)
        (by rw [hc]; exact col_dict_eqb_refl _) hnd
    unfold diff
    simp [Schema.table_names, dedupFirst, dedupFirstAux, Schema.get_table, htab,
      order_changes_nil]
  · intro hcm
    have hb : (s.comment == t.comment) = false := beq_eq_false_iff_ne.mpr hcm
    unfold tableEqb
    rw [hb]
    simp

/-- A table whose comment will change, for the C10 witness. -/
def commentedTableOld : Table :=
  { name := "ct", columns := [Column.make "id" "INT"], comment := some "old" }

/-- The same table with a new comment. -/
def commentedTableNew : Table :=
  { name := "ct", columns := [Column.make "id" "INT"], comment := some "new" }

theorem C10_comment_only_difference_never_diffed_witness :
    diff ⟨[("ct", commentedTableOld)]⟩ ⟨[("ct", commentedTableNew)]⟩ = [] ∧
    tableEqb commentedTableOld commentedTableNew = false := by
  have h := C10_comment_only_difference_never_diffed commentedTableOld commentedTableNew
    "ct" rfl rfl rfl rfl rfl rfl rfl (by decide)
  exact ⟨h.1, h.2 (by decide)⟩

end Ucmt
